import Mathlib

/-!
Shallow embedding of `liteiclink/serwb/s7serdes.py` (LiteICLink, Series-7
SerDes front end) and proofs about its alignment controller, clocking
generator, TX wiring and construction-time checks.

The source is a migen design.  Synchronous assignments (`self.sync +=`) are
modelled as explicit state-transition functions stepped once per sample-clock
(`sys`) cycle; combinatorial assignments (`self.comb +=`) are pure functions
of the current signals.  Machine integers are `Nat` with explicit `% 2^w`
truncation where the signal width matters.  The whole `S7Serdes` module is
wrapped in the migen `ResetInserter()`, with these semantics: when the inserted
`reset` control is asserted on a cycle, every register of the wrapped
fragment (submodules included) takes its reset value on the next cycle
instead of performing its normal synchronous update.
-/

/-! ## Alignment controller (`_S7SerdesRX`, lines 120-121, 161, 171)

The RX module holds a 3-bit register `_shift` with
`self.sync += If(self.shift, _shift.eq(_shift + 1))` : it increments
(wrapping at 3 bits, i.e. mod 8) on every cycle the external request
`self.shift` is high, and holds its value otherwise.  Two signals are derived
from the request:
  * `i_BITSLIP = self.shift` (line 161): the ISERDESE2 deserializer
    bit-slip input of the primitive is the raw, ungated request;
  * `datapath.shift = self.shift & (_shift == 0b111)` (line 171): the slip
    pulse forwarded to the word aligner of the RX datapath is gated by the
    counter reading its maximum value 7.
-/

/-- One synchronous update of the 3-bit `_shift` register
(`If(self.shift, _shift.eq(_shift + 1))`): increment mod 8 when the request
`shift` is high, hold otherwise. -/
def shiftStep (s : Nat) (shift : Bool) : Nat :=
  if shift then (s + 1) % 8 else s

/-- The `_shift` register over time under the inserted link reset `rst`
(from `ResetInserter()` on `S7Serdes`) and the request line `req`
(`self.shift`).  Reset value of `Signal(3)` is 0; a reset asserted on cycle
`t` forces the register to 0 on cycle `t+1` in place of its normal update. -/
def shiftStateR (rst req : Nat → Bool) : Nat → Nat
  | 0 => 0
  | t + 1 => if rst t = true then 0 else shiftStep (shiftStateR rst req t) (req t)

/-- The constantly deasserted reset line. -/
def noReset : Nat → Bool := fun _ => false

/-- The `_shift` register over time with the link reset held low. -/
def shiftState (req : Nat → Bool) : Nat → Nat :=
  shiftStateR noReset req

/-- The gated slip pulse forwarded to the word aligner of the RX datapath
(`datapath.shift.eq(self.shift & (_shift == 0b111))`, line 171), under a
reset line `rst`. -/
def effShiftR (rst req : Nat → Bool) (t : Nat) : Bool :=
  req t && (shiftStateR rst req t == 7)

/-- The gated slip pulse with the link reset held low. -/
def effShift (req : Nat → Bool) (t : Nat) : Bool :=
  effShiftR noReset req t

/-- The bit-slip input of the ISERDESE2 deserializer primitive
(`i_BITSLIP = self.shift`, line 161): the raw request, ungated. -/
def iserdesBITSLIP (req : Nat → Bool) (t : Nat) : Bool :=
  req t

/-- The `assert rate in [4,6,8]` guard repeated in `_S7SerdesClocking`,
`_S7SerdesTX` and `_S7SerdesRX`. -/
def rateOK (rate : Nat) : Bool :=
  rate == 4 || rate == 6 || rate == 8

/-! ### Helper lemmas about the pacing counter -/

theorem shiftStep_lt (s : Nat) (b : Bool) (hs : s < 8) : shiftStep s b < 8 := by
  cases b <;> simp [shiftStep] <;> omega

theorem shiftStateR_lt (rst req : Nat → Bool) (t : Nat) : shiftStateR rst req t < 8 := by
  induction t with
  | zero => simp [shiftStateR]
  | succ t ih =>
    by_cases h : rst t = true <;> simp [shiftStateR, h]
    exact shiftStep_lt _ _ ih

theorem shiftState_lt (req : Nat → Bool) (t : Nat) : shiftState req t < 8 :=
  shiftStateR_lt noReset req t

theorem shiftState_succ (req : Nat → Bool) (t : Nat) :
    shiftState req (t + 1) = shiftStep (shiftState req t) (req t) := by
  simp [shiftState, shiftStateR, noReset]

/-- Number of cycles among `t, t+1, ..., t+d-1` on which the request is high. -/
def reqCount (req : Nat → Bool) (t : Nat) : Nat → Nat
  | 0 => 0
  | d + 1 => reqCount req t d + (if req (t + d) = true then 1 else 0)

theorem reqCount_le (req : Nat → Bool) (t d : Nat) : reqCount req t d ≤ d := by
  induction d with
  | zero => simp [reqCount]
  | succ d ih =>
    by_cases h : req (t + d) = true <;> simp [reqCount, h] <;> omega

theorem reqCount_eq_of_all (req : Nat → Bool) (t d : Nat)
    (h : ∀ k, k < d → req (t + k) = true) : reqCount req t d = d := by
  induction d with
  | zero => simp [reqCount]
  | succ d ih =>
    have hd : req (t + d) = true := h d (by omega)
    have : reqCount req t d = d := ih (fun k hk => h k (by omega))
    simp [reqCount, hd, this]

theorem reqCount_eq_zero_of_all (req : Nat → Bool) (t d : Nat)
    (h : ∀ k, k < d → req (t + k) = false) : reqCount req t d = 0 := by
  induction d with
  | zero => simp [reqCount]
  | succ d ih =>
    have hd : req (t + d) = false := h d (by omega)
    have : reqCount req t d = 0 := ih (fun k hk => h k (by omega))
    simp [reqCount, hd, this]

/-- Over `d` cycles without reset, the counter advances by the number of
asserted request cycles, mod 8. -/
theorem shiftState_add (req : Nat → Bool) (t : Nat) :
    ∀ d, shiftState req (t + d) = (shiftState req t + reqCount req t d) % 8 := by
  intro d
  induction d with
  | zero =>
    simp [reqCount, Nat.mod_eq_of_lt (shiftState_lt req t)]
  | succ d ih =>
    have : t + (d + 1) = (t + d) + 1 := rfl
    rw [this, shiftState_succ, ih]
    by_cases h : req (t + d) = true <;> simp [shiftStep, reqCount, h] <;> omega

theorem effShift_iff (req : Nat → Bool) (t : Nat) :
    effShift req t = true ↔ req t = true ∧ shiftState req t = 7 := by
  simp [effShift, effShiftR, shiftState, Bool.and_eq_true]

/-- Two gated slip pulses are at least 8 cycles apart: after a pulse the
counter wraps to 0 and needs 7 further asserted cycles to reach 7 again. -/
theorem effShift_separation (req : Nat → Bool) (t₁ t₂ : Nat)
    (hlt : t₁ < t₂) (h1 : effShift req t₁ = true) (h2 : effShift req t₂ = true) :
    t₁ + 8 ≤ t₂ := by
  obtain ⟨hr1, hs1⟩ := (effShift_iff req t₁).mp h1
  obtain ⟨hr2, hs2⟩ := (effShift_iff req t₂).mp h2
  have hnext : shiftState req (t₁ + 1) = 0 := by
    rw [shiftState_succ, hs1, hr1]
    rfl
  have ht2 : t₂ = (t₁ + 1) + (t₂ - (t₁ + 1)) := by omega
  have hadd := shiftState_add req (t₁ + 1) (t₂ - (t₁ + 1))
  rw [← ht2, hnext, hs2] at hadd
  have hle := reqCount_le req (t₁ + 1) (t₂ - (t₁ + 1))
  omega

/-! ## Claim theorems about the alignment controller -/

/-- C1: for every supported rate (the pacing logic of `_S7SerdesRX` is the
same 3-bit counter for all of them) and every request sequence, the gated
slip pulse `self.shift & (_shift == 0b111)` is asserted at most once in any
8 consecutive sample-clock cycles (equivalently, two pulses are at least 8
cycles apart), and a run with the request line low throughout produces no
pulse at all. -/
theorem c1_effective_slip_at_most_one_per_eight (rate : Nat)
    (hrate : rate = 4 ∨ rate = 6 ∨ rate = 8) (req : Nat → Bool) :
    (∀ t₁ t₂, t₁ < t₂ → effShift req t₁ = true → effShift req t₂ = true →
      t₁ + 8 ≤ t₂) ∧
    ((∀ t, req t = false) → ∀ t, effShift req t = false) := by
  refine ⟨fun t₁ t₂ hlt h1 h2 => effShift_separation req t₁ t₂ hlt h1 h2, ?_⟩
  intro hlow t
  simp [effShift, effShiftR, hlow t]

/-- Witness for C1 at rate 8 and the constantly asserted request line. -/
theorem c1_effective_slip_witness :
    (8 = 4 ∨ 8 = 6 ∨ 8 = 8) ∧
    ((∀ t₁ t₂, t₁ < t₂ → effShift (fun _ => true) t₁ = true →
        effShift (fun _ => true) t₂ = true → t₁ + 8 ≤ t₂) ∧
     ((∀ t, (fun _ => true : Nat → Bool) t = false) →
        ∀ t, effShift (fun _ => true) t = false)) :=
  ⟨by simp, c1_effective_slip_at_most_one_per_eight 8 (by simp) (fun _ => true)⟩

/-- C2, counterexample: on cycle 0 of a held request the pacing counter
reads 0, not 7, yet the bit-slip input of the ISERDESE2 deserializer
primitive (`i_BITSLIP = self.shift`) is already asserted: the deserializer
primitive does receive an unpaced slip, so its slip input is not gated by
the counter. -/
theorem c2_deserializer_bitslip_ungated_cex :
    iserdesBITSLIP (fun _ => true) 0 = true ∧
    shiftState (fun _ => true) 0 = 0 ∧
    ((fun _ => true : Nat → Bool) 0 && (shiftState (fun _ => true) 0 == 7)) = false :=
  ⟨rfl, rfl, rfl⟩

/-- C2, amended: the gated signal is the one forwarded to the RX datapath
word aligner, not the one reaching the ISERDESE2 deserializer primitive.
On every cycle the datapath slip pulse is asserted iff the request is
asserted and the counter reads its maximum 7 (so the word aligner never
receives an unpaced slip), while the `BITSLIP` input of the primitive carries the
raw request. -/
theorem c2_datapath_slip_gated (req : Nat → Bool) (t : Nat) :
    effShift req t = (req t && (shiftState req t == 7)) ∧
    iserdesBITSLIP req t = req t ∧
    (effShift req t = true → req t = true ∧ shiftState req t = 7) :=
  ⟨rfl, rfl, fun h => (effShift_iff req t).mp h⟩

/-- C3: starting from counter 0, with the request held high on the 9 cycles
0..8, the gated slip pulse occurs exactly once among those cycles, on cycle
7 (the 8th asserted cycle), and the counter reads 0 again at cycle 8, i.e.
it has wrapped back to 0 by cycle 9 (on cycle 9 itself it reads 1 again). -/
theorem c3_nine_cycle_request_scenario (req : Nat → Bool)
    (h : ∀ t, t ≤ 8 → req t = true) :
    (∀ t, t ≤ 8 → (effShift req t = true ↔ t = 7)) ∧
    shiftState req 8 = 0 := by
  have hstate : ∀ u, u ≤ 9 → shiftState req u = u % 8 := by
    intro u hu
    have hc : reqCount req 0 u = u :=
      reqCount_eq_of_all req 0 u (fun k hk => by
        rw [Nat.zero_add]
        exact h k (by omega))
    have hadd := shiftState_add req 0 u
    simpa [shiftState, shiftStateR, hc] using hadd
  refine ⟨?_, by simpa using hstate 8 (by omega)⟩
  intro t ht
  rw [effShift_iff]
  constructor
  · rintro ⟨-, hs⟩
    rw [hstate t (by omega)] at hs
    omega
  · rintro rfl
    exact ⟨h 7 (by omega), by rw [hstate 7 (by omega)]⟩

/-- Witness for C3 at the constantly asserted request line. -/
theorem c3_nine_cycle_request_witness :
    (∀ t : Nat, t ≤ 8 → (fun _ => true : Nat → Bool) t = true) ∧
    ((∀ t, t ≤ 8 → (effShift (fun _ => true) t = true ↔ t = 7)) ∧
     shiftState (fun _ => true) 8 = 0) :=
  ⟨fun _ _ => rfl, c3_nine_cycle_request_scenario (fun _ => true) (fun _ _ => rfl)⟩

/-- C4, counterexample: request the slip on cycle 0 only.  On cycle 1 the
request line is low but the counter holds the value 1, not 0: the register
is not frozen at 0 while the request is low. -/
theorem c4_counter_not_frozen_at_zero_cex :
    (fun t : Nat => decide (t = 0)) 1 = false ∧
    shiftState (fun t : Nat => decide (t = 0)) 1 = 1 := by
  constructor
  · rfl
  · rfl

/-- C4, amended: the counter increments by one (mod 8, it is a 3-bit
register) on every cycle the request line is high; on every cycle the
request line is low it does not increment and holds its previous value —
which is not necessarily 0. -/
theorem c4_counter_increment_and_hold (req : Nat → Bool) :
    (∀ t, req t = true → shiftState req (t + 1) = (shiftState req t + 1) % 8) ∧
    (∀ t d, (∀ k, k < d → req (t + k) = false) →
      shiftState req (t + d) = shiftState req t) := by
  constructor
  · intro t ht
    rw [shiftState_succ, ht]
    rfl
  · intro t d hlow
    have hc : reqCount req t d = 0 := reqCount_eq_zero_of_all req t d hlow
    rw [shiftState_add req t d, hc]
    simpa using Nat.mod_eq_of_lt (shiftState_lt req t)

/-- C10: the `BITSLIP` input of the ISERDESE2 primitive is the raw external
request, unmodified and ungated, on every cycle — so a held request rotates
the capture window of the primitive on every asserted cycle — while the slip
pulse sent to the word aligner of the RX datapath is the only gated one and fires
at most once within any window of 8 cycles. -/
theorem c10_raw_bitslip_to_primitive (req : Nat → Bool) :
    (∀ t, iserdesBITSLIP req t = req t) ∧
    (∀ t k, k < 8 → req (t + k) = true → iserdesBITSLIP req (t + k) = true) ∧
    (∀ t k₁ k₂, k₁ < k₂ → k₂ < 8 → effShift req (t + k₁) = true →
      effShift req (t + k₂) = true → False) := by
  refine ⟨fun t => rfl, fun t k hk h => h, ?_⟩
  intro t k₁ k₂ hk hk8 h1 h2
  have := effShift_separation req (t + k₁) (t + k₂) (by omega) h1 h2
  omega

/-- C7: `S7Serdes` is wrapped in `ResetInserter()`, so asserting the link
reset on cycle `r` forces the `_shift` register back to its reset value 0 on
cycle `r+1`; from then on the alignment state and the gated slip output
coincide, cycle for cycle, with those of a freshly constructed instance fed
the same (shifted) reset and request sequences, since the fresh instance
also starts from 0. -/
theorem c7_reset_idempotent (rst req : Nat → Bool) (r : Nat)
    (h : rst r = true) :
    shiftStateR rst req (r + 1) = 0 ∧
    (∀ d, shiftStateR rst req (r + 1 + d)
        = shiftStateR (fun k => rst (r + 1 + k)) (fun k => req (r + 1 + k)) d) ∧
    (∀ d, effShiftR rst req (r + 1 + d)
        = effShiftR (fun k => rst (r + 1 + k)) (fun k => req (r + 1 + k)) d) := by
  have h0 : shiftStateR rst req (r + 1) = 0 := by
    simp [shiftStateR, h]
  have hstate : ∀ d, shiftStateR rst req (r + 1 + d)
      = shiftStateR (fun k => rst (r + 1 + k)) (fun k => req (r + 1 + k)) d := by
    intro d
    induction d with
    | zero => simpa [shiftStateR] using h0
    | succ d ih =>
      show (if rst (r + 1 + d) = true then 0
            else shiftStep (shiftStateR rst req (r + 1 + d)) (req (r + 1 + d)))
          = _
      rw [ih]
      rfl
  refine ⟨h0, hstate, fun d => ?_⟩
  simp only [effShiftR, hstate d]

/-- Witness for C7: reset held high, request held low, reset observed at
cycle 0. -/
theorem c7_reset_idempotent_witness :
    (fun _ : Nat => true) 0 = true ∧
    (shiftStateR (fun _ => true) (fun _ => false) (0 + 1) = 0 ∧
     (∀ d, shiftStateR (fun _ => true) (fun _ => false) (0 + 1 + d)
         = shiftStateR (fun _ => true) (fun _ => false) d) ∧
     (∀ d, effShiftR (fun _ => true) (fun _ => false) (0 + 1 + d)
         = effShiftR (fun _ => true) (fun _ => false) d)) :=
  ⟨rfl, c7_reset_idempotent (fun _ => true) (fun _ => false) 0 rfl⟩

/-! ## Clock generator (`_S7SerdesClocking`, lines 19-53)

In master mode the module instantiates `stream.Converter(40, rate)` fed
unconditionally — `converter.sink.valid.eq(1)`, `converter.source.ready.eq(1)`
and `converter.sink.data.eq(Replicate(Signal(10, reset=0b1111100000), 4))` —
and serializes the `rate`-wide output chunks of the converter through an
OSERDESE2 primitive (D1 first, i.e. data bit 0 first) onto the reference
clock pair.  The semantics of the down converter (litex `stream.Converter`, a
40-to-`rate` down converter): an internal chunk selector starting at 0
selects bits `[sel*rate, sel*rate+rate)` of the 40-bit sink word and, with
valid and ready both constantly high, advances by one mod `40/rate` every
cycle; being a synchronous register of the fragment, it is returned to 0 by
the inserted link reset (`ResetInserter()` on `S7Serdes`).  The `i_RST`
pin of the OSERDESE2 is tied to `ResetSignal("sys")`, the system reset — not the
inserted link reset. -/

/-- The 10-bit training pattern `Signal(10, reset=0b1111100000)`. -/
def trainingPattern : Nat := 0b1111100000

/-- The 40-bit super-frame `Replicate(Signal(10, reset=0b1111100000), 4)`:
four concatenated copies of the training pattern. -/
def superFrame : Nat :=
  trainingPattern ||| (trainingPattern <<< 10) |||
    (trainingPattern <<< 20) ||| (trainingPattern <<< 30)

/-- Comb assignment `converter.sink.valid.eq(1)` (line 29). -/
def converterSinkValid : Bool := true

/-- Comb assignment `converter.source.ready.eq(1)` (line 30). -/
def converterSourceReady : Bool := true

/-- Comb assignment `converter.sink.data.eq(Replicate(Signal(10, reset=0b1111100000), 4))`
(line 31). -/
def converterSinkData : Nat := superFrame

/-- Number of `rate`-wide chunks per 40-bit super-frame. -/
def convRatio (rate : Nat) : Nat := 40 / rate

/-- The chunk selector of the down converter over time under the inserted link
reset `rst`: starts at 0, advances by one mod `40/rate` every cycle (the
feed is unconditional), and is forced back to 0 by a reset. -/
def convState (rate : Nat) (rst : Nat → Bool) : Nat → Nat
  | 0 => 0
  | t + 1 => if rst t = true then 0 else (convState rate rst t + 1) % convRatio rate

/-- Bit `b` of the converter output chunk on cycle `t`: bit
`sel*rate + b` of the constant 40-bit sink word.  This is the value driven
into the OSERDESE2 `D(b+1)` input, hence the `b`-th serialized line bit of
that cycle. -/
def convChunkBit (rate : Nat) (rst : Nat → Bool) (t b : Nat) : Bool :=
  Nat.testBit converterSinkData (convState rate rst t * rate + b)

/-- The `n`-th bit of the serialized reference clock with the link reset
held low: the OSERDESE2 emits the chunk bits of each cycle in order D1..Drate,
so serial bit `n` is bit `n % rate` of the chunk of cycle `n / rate`. -/
def refclkBit (rate : Nat) (n : Nat) : Bool :=
  convChunkBit rate noReset (n / rate) (n % rate)

theorem convState_noReset (rate : Nat) (t : Nat) :
    convState rate noReset t = t % convRatio rate := by
  induction t with
  | zero => simp [convState]
  | succ t ih =>
    simp only [convState, noReset, Bool.false_eq_true, if_false, ih]
    conv_rhs => rw [Nat.add_mod]
    simp

/-- Every bit of the 40-bit super-frame is the corresponding bit of the
10-bit training pattern. -/
theorem superFrame_testBit :
    ∀ i, i < 40 → Nat.testBit superFrame i = Nat.testBit trainingPattern (i % 10) := by
  decide

/-- C5: in master mode at rate 8 the converter is fed unconditionally
(sink valid and source ready constantly 1, data the fixed 40-bit
super-frame), and the serialized reference-clock output is exactly the
endless repetition of the 10-bit training pattern: bit `n` of the line
equals bit `n % 10` of `0b1111100000`.  In particular every aligned 10-bit
window reads the training pattern and no other 10-bit sequence ever
appears in aligned windows. -/
theorem c5_master_refclk_pattern :
    converterSinkValid = true ∧ converterSourceReady = true ∧
    converterSinkData = superFrame ∧
    (∀ n, refclkBit 8 n = Nat.testBit trainingPattern (n % 10)) := by
  refine ⟨rfl, rfl, rfl, fun n => ?_⟩
  have hsel : convState 8 noReset (n / 8) = n / 8 % 5 := by
    simpa [convRatio] using convState_noReset 8 (n / 8)
  have hidx : n / 8 % 5 * 8 + n % 8 = n % 40 := by omega
  have h40 : n % 40 < 40 := by omega
  have h10 : n % 40 % 10 = n % 10 := by omega
  calc refclkBit 8 n
      = Nat.testBit superFrame (n % 40) := by
        simp [refclkBit, convChunkBit, converterSinkData, hsel, hidx]
    _ = Nat.testBit trainingPattern (n % 10) := by
        rw [superFrame_testBit (n % 40) h40, h10]

/-- A link reset pulsed on cycle 0 only. -/
def rstPulse0 : Nat → Bool := fun t => decide (t = 0)

/-- C8, counterexample: pulse the link reset on cycle 0 only.  On cycle 1
(reset already deasserted) the undisturbed generator emits bit 0 of its
second chunk — super-frame bit 8, a 1 — while the reset run emits bit 0 of
the first chunk again — super-frame bit 0, a 0.  The link reset therefore
does change the serialized output of the clock generator: it is not unaffected. -/
theorem c8_reset_affects_clockgen_cex :
    rstPulse0 1 = false ∧
    convChunkBit 8 rstPulse0 1 0 = false ∧
    convChunkBit 8 noReset 1 0 = true := by
  refine ⟨rfl, ?_, ?_⟩ <;> decide

/-- C8, amended: the link reset does not stall the clock generator — its
feed stays unconditional (sink valid and source ready are combinatorial
constants) and the reset pin of the OSERDESE2 primitive is tied to the system
reset, not the inserted link reset — but it does clear the chunk
selector of the width converter, so the super-frame restarts from its first chunk: after a
reset on cycle `r` the selector is 0 on cycle `r+1` and from there the
generator behaves exactly like a freshly started one.  The frame phase of the output
is thus disturbed by reset rather than continuing unchanged. -/
theorem c8_reset_restarts_converter (rate : Nat) (rst : Nat → Bool) (r : Nat)
    (h : rst r = true) :
    converterSinkValid = true ∧ converterSourceReady = true ∧
    convState rate rst (r + 1) = 0 ∧
    (∀ d, convState rate rst (r + 1 + d)
        = convState rate (fun k => rst (r + 1 + k)) d) := by
  have h0 : convState rate rst (r + 1) = 0 := by
    simp [convState, h]
  refine ⟨rfl, rfl, h0, fun d => ?_⟩
  induction d with
  | zero => simpa [convState] using h0
  | succ d ih =>
    show (if rst (r + 1 + d) = true then 0
          else (convState rate rst (r + 1 + d) + 1) % convRatio rate) = _
    rw [ih]
    rfl

/-- Witness for C8 at rate 8, reset held high, observed at cycle 0. -/
theorem c8_reset_restarts_witness :
    (fun _ : Nat => true) 0 = true ∧
    (converterSinkValid = true ∧ converterSourceReady = true ∧
     convState 8 (fun _ => true) (0 + 1) = 0 ∧
     (∀ d, convState 8 (fun _ => true) (0 + 1 + d)
         = convState 8 (fun _ => true) d)) :=
  ⟨rfl, c8_reset_restarts_converter 8 (fun _ => true) 0 rfl⟩

/-! ## Construction-time checks (`S7Serdes.__init__`, lines 179-184)

`S7Serdes.__init__` builds `_S7SerdesClocking(pads, mode, rate)`, then
`_S7SerdesTX(pads, rate)`, then `_S7SerdesRX(pads, rate)`.  Each of the
three begins with `assert rate in [4,6,8]`, a fatal `AssertionError` at
construction.  `mode` is only branched on (`if mode == "master": ...
elif mode == "slave": ...`) with no else branch and no assertion: an
unrecognized mode simply builds a clocking module with no contents. -/

/-- A Python exception escaping construction. -/
inductive ConfigError where
  | assertionError : ConfigError
deriving DecidableEq

/-- Constructor `_S7SerdesClocking.__init__`: asserts the rate, then branches on the
mode with no else branch — an unrecognized mode is accepted and builds
nothing. -/
def s7SerdesClocking_init (mode : String) (rate : Nat) : Except ConfigError Unit :=
  if rateOK rate = true then
    if mode = "master" then Except.ok ()
    else if mode = "slave" then Except.ok ()
    else Except.ok ()
  else Except.error ConfigError.assertionError

/-- Constructor `_S7SerdesTX.__init__`: asserts the rate. -/
def s7SerdesTX_init (rate : Nat) : Except ConfigError Unit :=
  if rateOK rate = true then Except.ok () else Except.error ConfigError.assertionError

/-- Constructor `_S7SerdesRX.__init__`: asserts the rate. -/
def s7SerdesRX_init (rate : Nat) : Except ConfigError Unit :=
  if rateOK rate = true then Except.ok () else Except.error ConfigError.assertionError

/-- Constructor `S7Serdes.__init__`: builds clocking, then TX, then RX, stopping at the
first assertion failure. -/
def s7Serdes_init (mode : String) (rate : Nat) : Except ConfigError Unit :=
  match s7SerdesClocking_init mode rate with
  | Except.error e => Except.error e
  | Except.ok _ =>
    match s7SerdesTX_init rate with
    | Except.error e => Except.error e
    | Except.ok _ => s7SerdesRX_init rate

/-- C6, counterexample: the mode string "invalid" is neither "master" nor
"slave", yet construction at rate 8 succeeds — an unsupported mode is not
detected and does not prevent the lane from being instantiated. -/
theorem c6_invalid_mode_accepted_cex :
    s7Serdes_init "invalid" 8 = Except.ok () ∧
    "invalid" ≠ "master" ∧ "invalid" ≠ "slave" := by
  refine ⟨rfl, ?_, ?_⟩ <;> decide

/-- C6, amended: construction fails (with a fatal assertion) exactly when
the rate is outside {4, 6, 8}, whatever the mode; an unsupported mode is
silently accepted. -/
theorem c6_construction_checks_rate_only (mode : String) (rate : Nat) :
    s7Serdes_init mode rate = Except.ok () ↔ (rate = 4 ∨ rate = 6 ∨ rate = 8) := by
  have hiff : rateOK rate = true ↔ (rate = 4 ∨ rate = 6 ∨ rate = 8) := by
    simp [rateOK, or_assoc]
  by_cases h : rateOK rate = true
  · simp only [s7Serdes_init, s7SerdesClocking_init, s7SerdesTX_init,
      s7SerdesRX_init, h, if_true]
    constructor
    · intro _
      exact hiff.mp h
    · intro _
      by_cases hm : mode = "master" <;> by_cases hs : mode = "slave" <;> simp [hm, hs]
  · simp only [s7Serdes_init, s7SerdesClocking_init, h, if_false]
    constructor
    · intro hcontra
      exact absurd hcontra (by simp)
    · intro hrate
      exact absurd (hiff.mpr hrate) h

/-! ## TX wiring (`_S7SerdesTX`, lines 57-99)

The TX combinatorial block (lines 72-77) wires the external 32-bit sink
onto the sink of the TX datapath (`sink.connect(datapath.sink)`), drives the
`rate`-wide source of the datapath with a constant ready
(`datapath.source.ready.eq(1)`), and passes the idle/comma controls
through.  The `rate`-wide word stream produced by the (external, out of
scope) TX line-coding datapath is therefore the interface this core
consumes, and the core holds its ready at 1. -/

/-- The combinatorial outputs of `_S7SerdesTX` as functions of the signals
they are wired from. -/
structure TXComb where
  datapath_sink_valid : Bool
  datapath_sink_data : Nat
  datapath_source_ready : Bool
  datapath_idle : Bool
  datapath_comma : Bool
  sink_ready : Bool
  data : Nat

/-- The `self.comb` block of `_S7SerdesTX` (lines 72-77 and 82):
`sink.connect(datapath.sink)` forwards valid/data downstream and ready
upstream, `datapath.source.ready.eq(1)` holds the ready of the datapath
source high, idle/comma pass through, and `data.eq(datapath.source.data)` feeds
the OSERDESE2. -/
def s7SerdesTX_comb (sink_valid : Bool) (sink_data : Nat)
    (datapath_sink_ready : Bool) (datapath_source_data : Nat)
    (idle comma : Bool) : TXComb :=
  { datapath_sink_valid := sink_valid
    datapath_sink_data := sink_data
    datapath_source_ready := true
    datapath_idle := idle
    datapath_comma := comma
    sink_ready := datapath_sink_ready
    data := datapath_source_data }

/-- C9: whatever the surrounding signal values on any cycle, the ready the
TX path drives back at the `rate`-wide output word
stream of the external encoder datapath (`datapath.source.ready.eq(1)`, line 74) is the constant 1 —
the serializer never back-pressures the encoder, so no word the encoder
presents is ever held off or dropped at this interface. -/
theorem c9_tx_source_ready_const (sink_valid : Bool) (sink_data : Nat)
    (datapath_sink_ready : Bool) (datapath_source_data : Nat)
    (idle comma : Bool) :
    (s7SerdesTX_comb sink_valid sink_data datapath_sink_ready
      datapath_source_data idle comma).datapath_source_ready = true :=
  rfl
